import Mathlib

/-!
Shallow embedding of `twitchio/ext/commands/bot.py` (the `Bot` class of the
TwitchIO commands extension): the command registry (`add_command`), member
discovery at construction (`__init__commands__`), prefix resolution
(`get_prefix`), the per-message pipeline (`get_context`, `handle_commands`,
`invoke`, `handle_checks`, `_run_cooldowns`), the event bus (`add_event`,
`run_event`) and module bookkeeping (`load_module`, `reload_module`).

Modelling conventions:
* Python dictionaries are insertion-ordered association lists
  (`List (String × _)`); `d[k] = v` keeps the position of an existing key
  and appends a fresh one, matching CPython semantics.
* A raised exception is a `PyErr` value.  Functions that cannot leave
  observable mutations behind return `Except PyErr _`; mutating functions
  whose raise must leave the mutations in place (`add_command`,
  `reload_module`) return the post-state next to the optional error.
* `await`-driven scheduling is modelled by returning the list of scheduled
  actions (`Action` for the invocation pipeline, `Sched` for
  `loop.create_task` in the event bus) in program order.
* Callbacks, hooks, check predicates and cooldown buckets are functions of
  the invocation data `CtxView`.  (In Python they receive the `Context`
  itself; the view omits only the `command` back-reference, which none of
  the embedded control flow reads inside a callback.)
-/

namespace Twitchio

/-- Python exception values raised or stored by the embedded code.
`checkFailure` keeps the offending predicate's repr and the command name
that the source interpolates into the `CheckFailure` message. -/
inductive PyErr
  | typeError (msg : String)
  | valueError (msg : String)
  | keyError (msg : String)
  | attributeError (msg : String)
  | importError (msg : String)
  | twitchCommandError (msg : String)
  | commandNotFound (msg : String)
  | checkFailure (pred : String) (cmd : String)
  | commandOnCooldown (msg : String)
  | parseError (msg : String)
  | exc (msg : String)
  deriving DecidableEq

/-- Modelled from the spec: the class hierarchy of the errors module
(`errors.py` is not among the given sources).  The §7 taxonomy groups
`CommandNotFound`, `ParseError`, `CheckFailure` and `CommandOnCooldown`
with the command-error family caught by `except TwitchCommandError`;
Python builtins (`TypeError`, `ValueError`, `KeyError`, ...) are not. -/
def isTwitchCommandError : PyErr → Bool
  | .twitchCommandError _ => true
  | .commandNotFound _ => true
  | .checkFailure _ _ => true
  | .commandOnCooldown _ => true
  | .parseError _ => true
  | _ => false

/-- `d.get(k)` / `d[k]` on an insertion-ordered Python dict. -/
def dictGet {α : Type} (d : List (String × α)) (k : String) : Option α :=
  match d.find? (fun kv => kv.1 == k) with
  | some kv => some kv.2
  | none => none

/-- `k in d` on a Python dict. -/
def dictMem {α : Type} (d : List (String × α)) (k : String) : Bool :=
  d.any (fun kv => kv.1 == k)

/-- `d[k] = v`: overwrite in place if the key exists, else append. -/
def dictSet {α : Type} (d : List (String × α)) (k : String) (v : α) :
    List (String × α) :=
  if dictMem d k then d.map (fun kv => if kv.1 == k then (k, v) else kv)
  else d ++ [(k, v)]

/-- `del d[k]` (total here; every embedded `del` is guarded by membership). -/
def dictDel {α : Type} (d : List (String × α)) (k : String) : List (String × α) :=
  d.filter (fun kv => !(kv.1 == k))

/-- Iterating a Python dict yields its keys, in insertion order. -/
def dictKeys {α : Type} (d : List (String × α)) : List String :=
  d.map (fun kv => kv.1)

/-- `d.update(other)`. -/
def dictUpdate {α : Type} (d other : List (String × α)) : List (String × α) :=
  other.foldl (fun acc kv => dictSet acc kv.1 kv.2) d

/-- An inbound chat message, as consumed by the command pipeline. -/
structure Message where
  content : String
  deriving DecidableEq

/-- The invocation data handed to callbacks, hooks, check predicates and
cooldown buckets (the `Context` attributes they can observe, minus the
`command` back-reference). -/
structure CtxView where
  message : Message
  pfx : Option String
  args : List String
  kwargs : List (String × String)
  valid : Bool
  deriving DecidableEq

/-- The Python value a check-predicate call produces before `handle_checks`
tests it with `result is False`: either a bool (synchronous predicate ran)
or a coroutine object (calling an async function does not run its body). -/
inductive PyVal
  | bool (b : Bool)
  | coroutine
  deriving DecidableEq

/-- A check predicate is a function object: either a plain function whose
call runs the body (returning a bool or raising), or an `async def`
function whose call merely builds a coroutine. -/
inductive PredKind
  | sync (f : CtxView → Except PyErr Bool)
  | async (f : CtxView → Except PyErr Bool)

/-- A registered check predicate; `id` is its repr, interpolated into the
`CheckFailure` message by `handle_checks`. -/
structure Predicate where
  id : String
  kind : PredKind

/-- `inspect.isawaitable(predicate)` in `handle_checks` (bot.py:276).  It is
true only for coroutine/future objects; a function object — async or not —
is never awaitable, so on stored predicates this is identically false. -/
def isawaitable (_ : Predicate) : Bool := false

/-- `predicate(context)`: run a plain function's body; calling an `async def`
function only creates a coroutine object, the body does not run. -/
def callPredicate (p : Predicate) (v : CtxView) : Except PyErr PyVal :=
  match p.kind with
  | .sync f =>
    match f v with
    | .ok b => .ok (.bool b)
    | .error e => .error e
  | .async _ => .ok .coroutine

/-- Modelled from the spec: a cooldown bucket (`core.py` is not among the
given sources).  §3: mutated on every attempted invocation; `update_bucket`
raises `CommandOnCooldown` — `some msg` here — when the bucket is
exhausted. -/
structure Bucket where
  update : CtxView → Option String

/-- Modelled from the spec: a cooldown bucket group (`core.py` is not among
the given sources).  `get_buckets` resolves the buckets for the invocation
context according to the group's keying strategy. -/
structure CooldownGroup where
  get_buckets : CtxView → List Bucket

/-- A command callback: whether `inspect.iscoroutinefunction` holds of it,
and its behaviour when awaited on the invocation data. -/
structure Callback where
  iscoroutinefunction : Bool
  run : CtxView → Except PyErr Unit

/-- Modelled in part from the spec: the `Command` descriptor (`core.py` is
not among the given sources; §3 lists exactly these members).  `parse_args`
is kept abstract — the §4.3 binder contract — since no embedded control
path depends on its internals. -/
structure Command where
  name : String
  aliases : List String
  callback : Callback
  checks : List Predicate
  cooldowns : List CooldownGroup
  before_invoke : Option (CtxView → Except PyErr Unit)
  after_invoke : Option (CtxView → Except PyErr Unit)
  event_error : Option (CtxView → PyErr → Except PyErr Unit)
  no_global_checks : Bool
  parse_args : List String → Except PyErr (List String × List (String × String))

/-- A member found by `inspect.getmembers(self)`: a `Command` instance or
anything else. -/
inductive PyObj
  | command (c : Command)
  | other (tag : String)

/-- Modelled from the spec: the per-invocation `Context` value object
(`core.py` is not among the given sources; §3 lists these attributes). -/
structure Context where
  message : Message
  pfx : Option String
  command : Option Command
  args : List String
  kwargs : List (String × String)
  valid : Bool

/-- The invocation data a `Context` exposes to callbacks and hooks. -/
def Context.view (ctx : Context) : CtxView :=
  { message := ctx.message, pfx := ctx.pfx, args := ctx.args,
    kwargs := ctx.kwargs, valid := ctx.valid }

instance {ε α : Type} [DecidableEq ε] [DecidableEq α] : DecidableEq (Except ε α) :=
  fun a b =>
    match a, b with
    | .ok x, .ok y =>
      if h : x = y then .isTrue (congrArg Except.ok h)
      else .isFalse (fun hh => h (Except.ok.inj hh))
    | .error x, .error y =>
      if h : x = y then .isTrue (congrArg Except.error h)
      else .isFalse (fun hh => h (Except.error.inj hh))
    | .ok _, .error _ => .isFalse (fun hh => Except.noConfusion hh)
    | .error _, .ok _ => .isFalse (fun hh => Except.noConfusion hh)

/-- A value passed to `add_event` / stored in `self._events`:
`iscoroutine` is `inspect.iscoroutine` (true only for coroutine objects),
`iscoroutinefunction` marks `async def` functions, and `call` is the
outcome the wrapper observes when it awaits `func(*args, **kwargs)`. -/
structure EvCallback where
  id : String
  iscoroutine : Bool
  iscoroutinefunction : Bool
  call : Except PyErr Unit
  deriving DecidableEq

/-- What `run_event` does per candidate handler: `loop.create_task` of the
wrapper, or `warnings.warn` for a non-coroutine built-in attribute. -/
inductive Sched
  | task (cb : EvCallback)
  | warned (name : String)
  deriving DecidableEq

/-- The value `__get_prefixes__` obtains: a string, a list/tuple/set of
strings, or a value of any other class. -/
inductive PfxVal
  | str (s : String)
  | coll (ss : List String)
  | bad (typeRepr : String)

/-- `self._prefix`: a static value, or a (sync or async) callable taking
the bot and the message. -/
inductive PfxSetting
  | value (v : PfxVal)
  | callableSync (f : Message → PfxVal)
  | callableAsync (f : Message → PfxVal)

/-- The mutable state and configuration of a `Bot` instance that the
embedded methods read and write.  `builtinAttr` is `getattr(self, name,
None)` as `run_event` uses it; module dicts store module identities. -/
structure Bot where
  pfxSetting : PfxSetting
  commands : List (String × Command)
  command_aliases : List (String × String)
  cogs : List (String × String)
  modules : List (String × String)
  sysModules : List (String × String)
  events : List (String × List EvCallback)
  checks : List Predicate
  global_before_invoke : CtxView → Except PyErr Unit
  global_after_invoke : CtxView → Except PyErr Unit
  builtinAttr : String → Option EvCallback

/-- An importable module: identity, whether it defines `prepare`, and the
effect `prepare(bot)` has on the bot state. -/
structure PyModule where
  id : String
  hasPrepare : Bool
  prep : Bot → Bot

/-- A bot with empty registries, a static `"!"` command marker and inert
global hooks; concrete scenarios below override individual fields. -/
def emptyBot : Bot where
  pfxSetting := .value (.str "!")
  commands := []
  command_aliases := []
  cogs := []
  modules := []
  sysModules := []
  events := []
  checks := []
  global_before_invoke := fun _ => .ok ()
  global_after_invoke := fun _ => .ok ()
  builtinAttr := fun _ => none

/-- bot.py:123. -/
def dupNameMsg (n : String) : String :=
  "Failed to load command <" ++ n ++ ">, a command with that name already exists."

/-- bot.py:125. -/
def notCoroMsg (n : String) : String :=
  "Failed to load command <" ++ n ++ ">. Commands must be coroutines."

/-- bot.py:136. -/
def dupAliasMsg (n : String) : String :=
  "Failed to load command <" ++ n ++ ">, a command with that name/alias already exists."

/-- bot.py:181. -/
def noCommandMsg (c : String) : String :=
  "No command \"" ++ c ++ "\" was found."

/-- The alias loop at the end of `Bot.add_command` (bot.py:129-138): each
alias is tested against the *name* map only; on collision the primary name
is deleted and `TwitchCommandError` raised — aliases stored on earlier
iterations are left in `self._command_aliases`.  An alias that collides
only with an existing alias is silently overwritten by `dictSet`. -/
def addAliases : Bot → Command → List String → Bot × Option PyErr
  | bot, _, [] => (bot, none)
  | bot, command, a :: rest =>
    if dictMem bot.commands a then
      ({ bot with commands := dictDel bot.commands command.name },
        some (.twitchCommandError (dupAliasMsg command.name)))
    else
      addAliases
        { bot with command_aliases := dictSet bot.command_aliases a command.name }
        command rest

/-- `Bot.add_command` (bot.py:112-138).  Returns the post-call state and the
raised error, if any.  The empty-aliases early return of the source is the
base case of `addAliases`. -/
def add_command (bot : Bot) (obj : PyObj) : Bot × Option PyErr :=
  match obj with
  | .other _ => (bot, some (.typeError "Commands passed must be a subclass of Command."))
  | .command command =>
    if dictMem bot.commands command.name then
      (bot, some (.twitchCommandError (dupNameMsg command.name)))
    else if !command.callback.iscoroutinefunction then
      (bot, some (.twitchCommandError (notCoroMsg command.name)))
    else
      addAliases
        { bot with commands := dictSet bot.commands command.name command }
        command command.aliases

/-- `Bot.__init__commands__` (bot.py:70-83): walk the members, skip
non-`Command` values (the `isinstance` filter), register the rest with
`add_command`, and catch `TwitchCommandError` (printing the traceback) so
the loop continues on the post-raise state; any other exception would
propagate. -/
def initCommandsLoop : Bot → List PyObj → Except PyErr Bot
  | bot, [] => .ok bot
  | bot, PyObj.other t :: rest =>
    let _ := t
    initCommandsLoop bot rest
  | bot, PyObj.command c :: rest =>
    match add_command bot (PyObj.command c) with
    | (bot2, none) => initCommandsLoop bot2 rest
    | (bot2, some e) =>
      if isTwitchCommandError e then initCommandsLoop bot2 rest
      else .error e

/-- Python `s.startswith(pre)`. -/
def pyStartsWith (s pre : String) : Bool :=
  pre.toList.isPrefixOf s.toList

/-- Python `s[n:]` (character slicing). -/
def pyDropChars (s : String) (n : Nat) : String :=
  String.mk (s.toList.drop n)

/-- Python `s.lstrip(' ')`. -/
def pyLStripSpaces (s : String) : String :=
  String.mk (s.toList.dropWhile (fun c => c == ' '))

/-- Python `len(s)`. -/
def pyStrLen (s : String) : Nat :=
  s.toList.length

/-- Python falsiness of a string: empty strings are falsy. -/
def pyStrFalsy (s : String) : Bool :=
  s.toList.isEmpty

/-- `Bot.__get_prefixes__` (bot.py:85-97): call `self._prefix` if callable,
then reject anything that is not a list/tuple/set/str with `TypeError`. -/
def getPfxValues (bot : Bot) (msg : Message) : Except PyErr PfxVal :=
  let ret : PfxVal :=
    match bot.pfxSetting with
    | .value v => v
    | .callableSync f => f msg
    | .callableAsync f => f msg
  match ret with
  | .bad r =>
    .error (.typeError ("Prefix must be of either class <list, tuple, set, str> not <" ++ r ++ ">"))
  | .str s => .ok (.str s)
  | .coll ss => .ok (.coll ss)

/-- `Bot.get_prefix` (bot.py:99-110): for a collection, the first entry the
message content starts with (falling off the loop returns `None`); for a
string, a direct `startswith` check. -/
def get_pfx (bot : Bot) (msg : Message) : Except PyErr (Option String) :=
  match getPfxValues bot msg with
  | .error e => .error e
  | .ok (.coll ss) => .ok (ss.find? (fun p => pyStartsWith msg.content p))
  | .ok (.str s) => .ok (if pyStartsWith msg.content s then some s else none)
  | .ok (.bad _) => .ok none

/-- Tokenizer scanning mode. -/
inductive TkMode
  | normal
  | inQuote

/-- Worker for `process_string`: split on spaces, group double-quoted runs,
fail on an unterminated quote. -/
def tokenizeAux : List Char → TkMode → String → List String → Except PyErr (List String)
  | [], .normal, cur, toks => .ok ((if pyStrFalsy cur then toks else cur :: toks).reverse)
  | [], .inQuote, _, _ => .error (.parseError "unterminated quote")
  | c :: rest, .normal, cur, toks =>
    if c == ' ' then tokenizeAux rest .normal "" (if pyStrFalsy cur then toks else cur :: toks)
    else if c == '\x22' then tokenizeAux rest .inQuote cur toks
    else tokenizeAux rest .normal (cur.push c) toks
  | c :: rest, .inQuote, cur, toks =>
    if c == '\x22' then tokenizeAux rest .normal cur toks
    else tokenizeAux rest .inQuote (cur.push c) toks

/-- Modelled from the spec: `StringParser.process_string`
(`stringparser.py` is not among the given sources).  §4.1: an ordered
sequence of string tokens, quoted substrings kept as single tokens with
the quotes stripped, `ParseError` on an unterminated quote.  The source
returns an index-keyed dict view whose `pop(0)` takes the first token;
that is the head of this list. -/
def process_string (s : String) : Except PyErr (List String) :=
  tokenizeAux s.toList .normal "" []

/-- Python truthiness of an optional prefix string: `None` and the empty
string are falsy (`if not prefix: ...`). -/
def pyTruthyStrOpt : Option String → Bool
  | none => false
  | some s => !pyStrFalsy s

/-- `cls(message=message, prefix=prefix, valid=False)` (bot.py:163). -/
def invalidCtx (msg : Message) (p : Option String) : Context :=
  { message := msg, pfx := p, command := none, args := [], kwargs := [], valid := false }

/-- `Bot.get_context` (bot.py:156-187).  Strip the matched prefix and
leading spaces, tokenize, pop the first token (`CommandNotFound` when the
view is empty), resolve aliases (`except KeyError: pass`), look the name
up in `self.commands` raising `CommandNotFound` when absent, and bind
arguments. -/
def get_context (bot : Bot) (msg : Message) : Except PyErr Context :=
  match get_pfx bot msg with
  | .error e => .error e
  | .ok p =>
    match p with
    | none => .ok (invalidCtx msg none)
    | some pfx =>
      if pyStrFalsy pfx then .ok (invalidCtx msg (some pfx))
      else
        match process_string (pyLStripSpaces (pyDropChars msg.content (pyStrLen pfx))) with
        | .error e => .error e
        | .ok [] => .error (.commandNotFound "No valid command was passed.")
        | .ok (tok :: rest) =>
          let cname := (dictGet bot.command_aliases tok).getD tok
          match dictGet bot.commands cname with
          | none => .error (.commandNotFound (noCommandMsg cname))
          | some cmd =>
            match cmd.parse_args rest with
            | .error e => .error e
            | .ok ak =>
              .ok { message := msg, pfx := some pfx, command := some cmd,
                    args := ak.1, kwargs := ak.2, valid := true }

/-- The check list `Bot.handle_checks` evaluates (bot.py:266-269): global
checks chained before the command's own, unless the command opts out. -/
def effectiveChecks (bot : Bot) (cmd : Command) : List Predicate :=
  if !cmd.no_global_checks then bot.checks ++ cmd.checks else cmd.checks

/-- The `for predicate in checks` loop of `Bot.handle_checks`
(bot.py:274-286), together with the surrounding `try`: the first raise is
returned as a value, a call whose result `is False` returns a
`CheckFailure` naming the predicate and the command.  The `isawaitable`
branch is dead for function-valued predicates (awaiting
`predicate(context)` would itself be a `TypeError`: awaitables are not
callable). -/
def checksLoop : List Predicate → String → CtxView → Option PyErr
  | [], _, _ => none
  | p :: rest, cmdName, v =>
    let result : Except PyErr PyVal :=
      if isawaitable p then .error (.typeError "a coroutine object is not callable")
      else callPredicate p v
    match result with
    | .error e => some e
    | .ok r =>
      if r = PyVal.bool false then some (.checkFailure p.id cmdName)
      else checksLoop rest cmdName v

/-- `Bot.handle_checks` (bot.py:262-286): `none` is the source's `True`,
`some e` the returned exception value. -/
def handle_checks (bot : Bot) (cmd : Command) (v : CtxView) : Option PyErr :=
  let checks := effectiveChecks bot cmd
  if checks.isEmpty then none
  else checksLoop checks cmd.name v

/-- The `for bucket in buckets` loop of `Bot._run_cooldowns`
(bot.py:252-260): the first `CommandOnCooldown` raised stops the loop and
is the only error appended to `expired`. -/
def updateBuckets : List Bucket → CtxView → List PyErr
  | [], _ => []
  | b :: rest, v =>
    match b.update v with
    | none => updateBuckets rest v
    | some msg => [.commandOnCooldown msg]

/-- `Bot._run_cooldowns` (bot.py:246-260): `self._cooldowns[0]` raises
`IndexError` when there are no groups, which the source turns into `None`;
only the first bucket group is ever consulted. -/
def run_cooldowns (cmd : Command) (v : CtxView) : Option (List PyErr) :=
  match cmd.cooldowns with
  | [] => none
  | g :: _ => some (updateBuckets (g.get_buckets v) v)

/-- Observable steps of one `Bot.invoke` run, in program order.
`runEvent name e` is a `self.run_event(name, ..., e)` publication. -/
inductive Action
  | runEvent (name : String) (e : PyErr)
  | ranGlobalBefore
  | ranBefore
  | ranCallback (ok : Bool)
  | ranCommandErrorHook
  | ranAfter
  | ranGlobalAfter
  deriving DecidableEq

/-- The inner `try_run` of `Bot.invoke` (bot.py:199-206): await the given
coroutine; on an exception publish `error`, or `command_error` when
`to_command` is set.  The marker records that the awaited hook ran. -/
def try_run (res : Except PyErr Unit) (marker : Action) (to_command : Bool) : List Action :=
  marker ::
    (match res with
     | .ok _ => []
     | .error e => [.runEvent (if to_command then "command_error" else "error") e])

/-- The callback stage of `Bot.invoke` (bot.py:231-238): await the
callback; on an exception run the command's `event_error` hook (itself
via `try_run`, with `to_command` left false) and publish `command_error`
with the original exception. -/
def callbackPhase (cmd : Command) (v : CtxView) : List Action :=
  match cmd.callback.run v with
  | .ok _ => [.ranCallback true]
  | .error e =>
    [.ranCallback false]
      ++ (match cmd.event_error with
          | some h => try_run (h v e) .ranCommandErrorHook false
          | none => [])
      ++ [.runEvent "command_error" e]

/-- Before-hooks and callback of `Bot.invoke` (bot.py:226-238):
`global_before_invoke` via `try_run`, the command's `before_invoke` via
`try_run(..., to_command=True)`, then the callback stage. -/
def preHooksAndCallback (bot : Bot) (cmd : Command) (v : CtxView) : List Action :=
  try_run (bot.global_before_invoke v) .ranGlobalBefore false
    ++ (match cmd.before_invoke with
        | some h => try_run (h v) .ranBefore true
        | none => [])
    ++ callbackPhase cmd v

/-- After-hooks of `Bot.invoke` (bot.py:240-244): the command's
`after_invoke` first, then `global_after_invoke`, both via `try_run`;
the source reaches this code whether or not the callback raised. -/
def afterHooks (bot : Bot) (cmd : Command) (v : CtxView) : List Action :=
  (match cmd.after_invoke with
   | some h => try_run (h v) .ranAfter true
   | none => [])
    ++ try_run (bot.global_after_invoke v) .ranGlobalAfter false

/-- Hook/callback pipeline of `Bot.invoke` once checks and cooldowns have
passed (bot.py:220-244). -/
def invokeHooks (bot : Bot) (cmd : Command) (v : CtxView) : List Action :=
  preHooksAndCallback bot cmd v ++ afterHooks bot cmd v

/-- `Bot.invoke` (bot.py:194-244): return early on a falsy prefix; run
checks, publishing `command_error` with the returned exception value when
they did not yield `True`; run cooldowns, publishing `command_error` with
`limited[0]` when the expired list is truthy; otherwise run hooks and
callback.  Accessing `context.command._instance` on a command-less context
raises `AttributeError`. -/
def invoke (bot : Bot) (ctx : Context) : Except PyErr (List Action) :=
  if pyTruthyStrOpt ctx.pfx = false then .ok []
  else
    match ctx.command with
    | none => .error (.attributeError "NoneType object has no attribute _instance")
    | some cmd =>
      match handle_checks bot cmd ctx.view with
      | some e => .ok [.runEvent "command_error" e]
      | none =>
        match run_cooldowns cmd ctx.view with
        | some (e :: _) => .ok [.runEvent "command_error" e]
        | _ => .ok (invokeHooks bot cmd ctx.view)

/-- `Bot.handle_commands` (bot.py:189-192): build the context, then invoke.
There is no exception handling here; whatever `get_context` raises
propagates to the caller. -/
def handle_commands (bot : Bot) (msg : Message) : Except PyErr (List Action) :=
  match get_context bot msg with
  | .error e => .error e
  | .ok context => invoke bot context

/-- The built-in-handler part of `Bot.run_event` (bot.py:451-456):
`getattr(self, name, None)`; a coroutine object is scheduled via the
wrapper, any other non-`None` attribute only triggers a warning
(`inspect.iscoroutine` is false for bound methods and functions). -/
def builtinSched (bot : Bot) (name : String) : List Sched :=
  match bot.builtinAttr name with
  | none => []
  | some cb => if cb.iscoroutine then [.task cb] else [.warned name]

/-- `Bot.run_event` (bot.py:444-460): schedule the built-in attribute, then
`loop.create_task(wrapped(event))` for every subscriber stored under the
name, in list (= registration) order. -/
def run_event (bot : Bot) (name : String) : List Sched :=
  builtinSched bot name
    ++ (match dictGet bot.events name with
        | some lst => lst.map Sched.task
        | none => [])

/-- Executing one `wrapped(func)` task (bot.py:445-449): await the
callback; an exception is caught and re-published through
`self.run_event("error", e)`.  Returns the caught exception (if any) and
the tasks that republication schedules. -/
def runWrapped (bot : Bot) (cb : EvCallback) : Option PyErr × List Sched :=
  match cb.call with
  | .ok _ => (none, [])
  | .error e => (some e, run_event bot "error")

/-- The `self._events` insertion of `Bot.add_event` (bot.py:477-481):
append to the existing list, or start a fresh one. -/
def appendEvent (evs : List (String × List EvCallback)) (n : String) (cb : EvCallback) :
    List (String × List EvCallback) :=
  match dictGet evs n with
  | some lst => dictSet evs n (lst ++ [cb])
  | none => evs ++ [(n, [cb])]

/-- `Bot.add_event` (bot.py:470-481): reject any callback for which
`inspect.iscoroutine` is false — which includes `async def` functions —
with `ValueError`; otherwise store it under `name or callback.__name__`
(the `callback._event` attribute write is bookkeeping for removal and has
no observable effect here). -/
def add_event (bot : Bot) (callback : EvCallback) (name : Option String) : Except PyErr Bot :=
  if !callback.iscoroutine then .error (.valueError "callback must be a coroutine")
  else
    let event_name := name.getD callback.id
    .ok { bot with events := appendEvent bot.events event_name callback }

/-- `Bot.load_module` (bot.py:288-308): refuse a loaded name, import the
module (which registers it in `sys.modules`), call `prepare(self)` when it
exists — otherwise drop the module from `sys.modules` and raise
`ImportError` — and record the module. -/
def load_module (env : String → Option PyModule) (st : Bot) (name : String) :
    Except PyErr Unit × Bot :=
  if dictMem st.modules name then
    (.error (.valueError ("Module <" ++ name ++ "> is already loaded")), st)
  else
    match env name with
    | none => (.error (.importError name), st)
    | some module =>
      let st1 := { st with sysModules := dictSet st.sysModules name module.id }
      if module.hasPrepare then
        let st2 := module.prep st1
        (.ok (), { st2 with modules := dictSet st2.modules name module.id })
      else
        (.error (.importError ("Module <" ++ name ++ "> is missing a prepare method")),
          { st1 with sysModules := dictDel st1.sysModules name })

/-- `name, cmd = k` for a dict key `k`: Python unpacks the string into its
characters, so it succeeds exactly on two-character keys. -/
def unpack2 (k : String) : Except PyErr (String × String) :=
  match k.toList with
  | [a, b] => .ok (String.mk [a], String.mk [b])
  | _ => .error (.valueError "too many or too few values to unpack (expected 2)")

/-- One collection loop of `Bot.reload_module` (bot.py:341-358), e.g.
`[(name, cmd) for name, cmd in self._commands if cmd._callback...]`:
iterating the dict yields its keys; each key is character-unpacked
(`ValueError` unless it has length two) and the second character — a
one-character `str` — then has `attr` looked up on it, raising
`AttributeError`.  The loop therefore fails on its first iteration
whenever the dict is non-empty, and collects nothing otherwise. -/
def reloadScanPhase (attr : String) (keys : List String) : Except PyErr Unit :=
  match keys with
  | [] => .ok ()
  | k :: _ =>
    match unpack2 k with
    | .error e => .error e
    | .ok _ => .error (.attributeError ("str object has no attribute " ++ attr))

/-- `Bot.reload_module` (bot.py:331-369).  The module record is popped
*before* the scan loops; a raise inside them escapes the function with the
record already gone (the restoring `except` only wraps `load_module`).
When every scan succeeds all three dicts were empty, so the saved
`commands`/`aliases`/`cogs` snapshots restored on a failed reload are
empty as well. -/
def reload_module (env : String → Option PyModule) (st : Bot) (name : String) :
    Except PyErr Unit × Bot :=
  if !dictMem st.modules name then
    (.error (.valueError ("Module <" ++ name ++ "> is not loaded")), st)
  else
    match dictGet st.modules name with
    | none => (.error (.valueError ("Module <" ++ name ++ "> is not loaded")), st)
    | some module =>
      let st1 := { st with modules := dictDel st.modules name }
      match reloadScanPhase "__module__" (dictKeys st1.cogs) with
      | .error e => (.error e, st1)
      | .ok _ =>
        match reloadScanPhase "_callback" (dictKeys st1.commands) with
        | .error e => (.error e, st1)
        | .ok _ =>
          match reloadScanPhase "_callback" (dictKeys st1.command_aliases) with
          | .error e => (.error e, st1)
          | .ok _ =>
            if !dictMem st1.sysModules name then (.error (.keyError name), st1)
            else
              let st2 := { st1 with sysModules := dictDel st1.sysModules name }
              match load_module env st2 name with
              | (.ok _, st3) => (.ok (), st3)
              | (.error e, st3) =>
                (.error e,
                  { st3 with
                    sysModules := dictSet st3.sysModules name module,
                    modules := dictSet st3.modules name module,
                    command_aliases := dictUpdate st3.command_aliases [],
                    commands := dictUpdate st3.commands [],
                    cogs := dictUpdate st3.cogs [] })

/-- `self._command_aliases` after the alias loop has stored `l` aliases of a
command named `n` (each via `d[alias] = n`). -/
def insertAliases (d : List (String × String)) (n : String) (l : List String) :
    List (String × String) :=
  l.foldl (fun acc b => dictSet acc b n) d

/-! Concrete scenarios used by the claim-level theorems below. -/

/-- A well-formed coroutine callback that returns normally. -/
def cbOk : Callback := { iscoroutinefunction := true, run := fun _ => .ok () }

/-- A coroutine callback that raises `Exception("boom")`. -/
def cbBoom : Callback := { iscoroutinefunction := true, run := fun _ => .error (.exc "boom") }

/-- A plain command: no aliases beyond `al`, no checks, cooldowns or hooks. -/
def mkCmd (n : String) (al : List String) : Command :=
  { name := n, aliases := al, callback := cbOk, checks := [], cooldowns := [],
    before_invoke := none, after_invoke := none, event_error := none,
    no_global_checks := false, parse_args := fun _ => .ok ([], []) }

/-- A valid context for command `c`, as `get_context` would build it from
the message `"!t"`. -/
def mkCtx (c : Command) : Context :=
  { message := { content := "!t" }, pfx := some "!", command := some c,
    args := [], kwargs := [], valid := true }

/-- A bot that already has a command registered under the name `y`. -/
def botA : Bot := { emptyBot with commands := [("y", mkCmd "y" [])] }

/-- A command whose second alias collides with the registered name `y`. -/
def cxA : Command := mkCmd "x" ["a", "y"]

/-- A fresh command whose name collides with the registered name `y`. -/
def cyDup : Command := mkCmd "y" []

/-- A bot with a command `y` that also owns the alias `a`. -/
def botB : Bot :=
  { emptyBot with commands := [("y", mkCmd "y" [])], command_aliases := [("a", "y")] }

/-- A command whose alias collides with the existing alias `a`. -/
def czB : Command := mkCmd "z" ["a"]

/-- A command whose callback raises and which has an `after_invoke` hook. -/
def cmdC3 : Command :=
  { mkCmd "t" [] with callback := cbBoom, after_invoke := some (fun _ => .ok ()) }

/-- The context invoking `cmdC3`. -/
def ctxC3 : Context := mkCtx cmdC3

/-- An `async def` check predicate whose body would resolve to `False`. -/
def asyncFalse : Predicate := { id := "async_false", kind := .async (fun _ => .ok false) }

/-- A command guarded only by the async predicate `asyncFalse`. -/
def cmdC4 : Command := { mkCmd "t" [] with checks := [asyncFalse] }

/-- The context invoking `cmdC4`. -/
def ctxC4 : Context := mkCtx cmdC4

/-- A bucket whose `update_bucket` raises `CommandOnCooldown`. -/
def bucketHot : Bucket := { update := fun _ => some "rate limited" }

/-- A first cooldown group containing the exhausted bucket. -/
def grpHot : CooldownGroup := { get_buckets := fun _ => [bucketHot] }

/-- A second cooldown group whose buckets would all pass. -/
def grpCold : CooldownGroup := { get_buckets := fun _ => [] }

/-- A command with two cooldown groups; only the first is ever consulted. -/
def cmdC6 : Command := { mkCmd "t" [] with cooldowns := [grpHot, grpCold] }

/-- The context invoking `cmdC6`. -/
def ctxC6 : Context := mkCtx cmdC6

/-- A synchronous check predicate returning `False`. -/
def syncFalse : Predicate := { id := "sync_false", kind := .sync (fun _ => .ok false) }

/-- A command guarded by `syncFalse`. -/
def cmdC7 : Command := { mkCmd "t" [] with checks := [syncFalse] }

/-- The context invoking `cmdC7`. -/
def ctxC7 : Context := mkCtx cmdC7

/-- A synchronous check predicate that raises `Exception("bad")`. -/
def syncRaise : Predicate := { id := "sync_raise", kind := .sync (fun _ => .error (.exc "bad")) }

/-- A command guarded by `syncRaise`. -/
def cmdC7b : Command := { mkCmd "t" [] with checks := [syncRaise] }

/-- The context invoking `cmdC7b`. -/
def ctxC7b : Context := mkCtx cmdC7b

/-- A subscriber (a coroutine object, as `add_event` demands) that completes. -/
def cbA : EvCallback :=
  { id := "a", iscoroutine := true, iscoroutinefunction := false, call := .ok () }

/-- A subscriber whose awaited body raises `Exception("boom")`. -/
def cbB : EvCallback :=
  { id := "b", iscoroutine := true, iscoroutinefunction := false, call := .error (.exc "boom") }

/-- A bot with two subscribers registered, in order, under `ping`. -/
def bot5 : Bot := { emptyBot with events := [("ping", [cbA, cbB])] }

/-- An `async def` event handler function — the value every `@bot.event`
decoration passes to `add_event`; it is not a coroutine object. -/
def handlerFn : EvCallback :=
  { id := "event_test", iscoroutine := false, iscoroutinefunction := true, call := .ok () }

/-- A coroutine object, the only kind of value `add_event` accepts. -/
def coroObjCb : EvCallback :=
  { id := "event_test2", iscoroutine := true, iscoroutinefunction := false, call := .ok () }

/-- A registered command whose name has five characters. -/
def cmdH : Command := mkCmd "hello" []

/-- A bot with module `m` loaded and one command registered. -/
def st8 : Bot :=
  { emptyBot with
      modules := [("m", "modM")]
      sysModules := [("m", "modM")]
      commands := [("hello", cmdH)] }

/-- An import environment in which every import fails (never reached in the
scenario above). -/
def env8 : String → Option PyModule := fun _ => none

/-! Helper lemmas about the registry dictionaries and the check loop. -/

/-- Absent keys match no entry. -/
theorem dictMem_false_forall {α : Type} {k : String} :
    ∀ (d : List (String × α)), dictMem d k = false → ∀ kv ∈ d, (kv.1 == k) = false := by
  intro d
  induction d with
  | nil => intro _ kv hkv; cases hkv
  | cons a t ih =>
    intro h kv hkv
    unfold dictMem at h
    rw [List.any_cons, Bool.or_eq_false_iff] at h
    rcases List.mem_cons.mp hkv with hkv | hkv
    · rw [hkv]; exact h.1
    · exact ih h.2 kv hkv

/-- Deleting a freshly inserted key restores the dictionary exactly. -/
theorem dictDel_dictSet_of_not_mem {α : Type} (d : List (String × α)) (k : String) (v : α)
    (h : dictMem d k = false) : dictDel (dictSet d k v) k = d := by
  have hset : dictSet d k v = d ++ [(k, v)] := by simp [dictSet, h]
  rw [hset]
  unfold dictDel
  rw [List.filter_append]
  have h1 : d.filter (fun kv => !(kv.1 == k)) = d := by
    apply List.filter_eq_self.mpr
    intro kv hkv
    simp [dictMem_false_forall d h kv hkv]
  rw [h1]
  simp

/-- The alias loop of `add_command`, on the first colliding alias: the
primary name is deleted from the name map, `TwitchCommandError` is raised,
and every alias stored on an earlier iteration stays in the alias map. -/
theorem addAliases_collides (c : Command) (a : String) (post : List String) :
    ∀ (pre : List String) (bot : Bot),
      (∀ b ∈ pre, dictMem bot.commands b = false) →
      dictMem bot.commands a = true →
      addAliases bot c (pre ++ a :: post) =
        ({ bot with
            commands := dictDel bot.commands c.name,
            command_aliases := insertAliases bot.command_aliases c.name pre },
          some (PyErr.twitchCommandError (dupAliasMsg c.name))) := by
  intro pre
  induction pre with
  | nil =>
    intro bot _ hma
    simp [addAliases, hma, insertAliases]
  | cons b pre ih =>
    intro bot hpre hma
    have hb : dictMem bot.commands b = false := hpre b (by simp)
    have hrest : ∀ x ∈ pre, dictMem bot.commands x = false :=
      fun x hx => hpre x (by simp [hx])
    rw [List.cons_append]
    show addAliases bot c (b :: (pre ++ a :: post)) = _
    rw [addAliases]
    rw [hb]
    simp only [Bool.false_eq_true, if_false]
    rw [ih { bot with command_aliases := dictSet bot.command_aliases b c.name } hrest hma]
    rfl

/-- Every error the alias loop raises is a `TwitchCommandError`. -/
theorem addAliases_err_twitch (c : Command) :
    ∀ (l : List String) (bot : Bot) (e : PyErr),
      (addAliases bot c l).2 = some e → isTwitchCommandError e = true := by
  intro l
  induction l with
  | nil =>
    intro bot e h
    simp [addAliases] at h
  | cons a rest ih =>
    intro bot e h
    rw [addAliases] at h
    cases hm : dictMem bot.commands a with
    | true =>
      rw [hm] at h
      simp only [if_true] at h
      cases h
      rfl
    | false =>
      rw [hm] at h
      simp only [Bool.false_eq_true, if_false] at h
      exact ih _ e h

/-- Every error `add_command` raises on a `Command` argument is a
`TwitchCommandError` (the `TypeError` branch needs a non-`Command`). -/
theorem add_command_err_twitch (bot : Bot) (c : Command) (e : PyErr)
    (h : (add_command bot (PyObj.command c)).2 = some e) :
    isTwitchCommandError e = true := by
  simp only [add_command] at h
  cases h1 : dictMem bot.commands c.name with
  | true =>
    rw [h1] at h
    simp only [if_true] at h
    cases h
    rfl
  | false =>
    rw [h1] at h
    simp only [Bool.false_eq_true, if_false] at h
    cases h2 : c.callback.iscoroutinefunction with
    | false =>
      rw [h2] at h
      simp only [Bool.not_false, if_true] at h
      cases h
      rfl
    | true =>
      rw [h2] at h
      simp only [Bool.not_true, Bool.false_eq_true, if_false] at h
      exact addAliases_err_twitch c _ _ e h

/-- Predicates whose call yields a value other than the literal `False`
are skipped by the check loop. -/
theorem checksLoop_append_pass (n : String) (v : CtxView) :
    ∀ (pre l : List Predicate),
      (∀ q ∈ pre, ∃ r, callPredicate q v = .ok r ∧ r ≠ PyVal.bool false) →
      checksLoop (pre ++ l) n v = checksLoop l n v := by
  intro pre
  induction pre with
  | nil => intro l _; rfl
  | cons q pre ih =>
    intro l h
    obtain ⟨r, hr, hne⟩ := h q (by simp)
    rw [List.cons_append]
    show checksLoop (q :: (pre ++ l)) n v = _
    rw [checksLoop]
    simp only [isawaitable, Bool.false_eq_true, if_false]
    rw [hr]
    simp only [hne, if_false]
    exact ih l (fun x hx => h x (by simp [hx]))

/-- A non-empty list of checks. -/
theorem isEmpty_append_cons {α : Type} (pre : List α) (p : α) (post : List α) :
    (pre ++ p :: post).isEmpty = false := by
  cases pre <;> rfl

/-! Claim-level theorems. -/

/-- Claim C2, counterexample.  Part one: registering `x` with aliases
`["a", "y"]` against a bot that owns the name `y` raises the duplicate
error, yet the alias `a` stored on the first loop iteration survives in
the alias map, so the registry is not restored to its pre-call state.
Part two: registering `z` with alias `a` against a bot whose command `y`
already owns the alias `a` succeeds and silently overwrites the alias-map
entry, so alias/alias collisions are not failures. -/
theorem C2_add_command_counterexample :
    ((add_command botA (PyObj.command cxA)).2 =
        some (PyErr.twitchCommandError (dupAliasMsg "x"))
      ∧ botA.command_aliases = []
      ∧ (add_command botA (PyObj.command cxA)).1.command_aliases = [("a", "x")])
    ∧ ((add_command botB (PyObj.command czB)).2 = none
      ∧ botB.command_aliases = [("a", "y")]
      ∧ (add_command botB (PyObj.command czB)).1.command_aliases = [("a", "z")]) :=
  ⟨⟨rfl, rfl, rfl⟩, ⟨rfl, rfl, rfl⟩⟩

/-- Claim C2, amended.  `add_command` raises a duplicate-command error when
the command's name is an existing primary name, or when an alias equals a
primary name present once the command's own name has been inserted;
collisions with existing aliases are not detected.  After a failed alias
registration the name map is restored exactly, but the aliases processed
before the colliding one remain in the alias map. -/
theorem C2_add_command_partial_rollback (bot : Bot) (c : Command)
    (pre : List String) (a : String) (post : List String) :
    (dictMem bot.commands c.name = true →
      add_command bot (PyObj.command c) =
        (bot, some (PyErr.twitchCommandError (dupNameMsg c.name))))
    ∧ (dictMem bot.commands c.name = false →
       c.callback.iscoroutinefunction = true →
       c.aliases = pre ++ a :: post →
       (∀ b ∈ pre, dictMem (dictSet bot.commands c.name c) b = false) →
       dictMem (dictSet bot.commands c.name c) a = true →
       (add_command bot (PyObj.command c)).2 =
         some (PyErr.twitchCommandError (dupAliasMsg c.name))
       ∧ (add_command bot (PyObj.command c)).1.commands = bot.commands
       ∧ (add_command bot (PyObj.command c)).1.command_aliases =
           insertAliases bot.command_aliases c.name pre) := by
  constructor
  · intro h1
    simp [add_command, h1]
  · intro h1 h2 h3 h4 h5
    have hstep :
        add_command bot (PyObj.command c) =
          addAliases { bot with commands := dictSet bot.commands c.name c } c c.aliases := by
      simp [add_command, h1, h2]
    rw [hstep, h3,
      addAliases_collides c a post pre { bot with commands := dictSet bot.commands c.name c } h4 h5]
    refine ⟨rfl, ?_, rfl⟩
    exact dictDel_dictSet_of_not_mem bot.commands c.name c h1

/-- Claim C2, witness: the amended theorem, first at a command whose name
collides with the registered primary name `y` (duplicate error, state
untouched), then at the alias-collision scenario of the counterexample. -/
theorem C2_add_command_partial_rollback_witness :
    add_command botA (PyObj.command cyDup) =
      (botA, some (PyErr.twitchCommandError (dupNameMsg cyDup.name)))
    ∧ ((add_command botA (PyObj.command cxA)).2 =
        some (PyErr.twitchCommandError (dupAliasMsg cxA.name))
      ∧ (add_command botA (PyObj.command cxA)).1.commands = botA.commands
      ∧ (add_command botA (PyObj.command cxA)).1.command_aliases =
          insertAliases botA.command_aliases cxA.name ["a"]) :=
  ⟨(C2_add_command_partial_rollback botA cyDup [] "" []).1 rfl,
    (C2_add_command_partial_rollback botA cxA ["a"] "y" []).2 rfl rfl rfl
      (by decide) (by decide)⟩

/-- Claim C10: `__init__commands__` registers every `Command`-valued member
through `add_command` and never lets a registration error escape: the loop
always returns normally, a `Command` member is always processed by running
`add_command` and continuing on its post-state (whether or not it raised a
`TwitchCommandError`), and non-`Command` members are skipped. -/
theorem C10_init_commands_never_raises :
    (∀ (bot : Bot) (members : List PyObj),
      ∃ bot2, initCommandsLoop bot members = Except.ok bot2)
    ∧ (∀ (bot : Bot) (c : Command) (rest : List PyObj),
        initCommandsLoop bot (PyObj.command c :: rest) =
          initCommandsLoop (add_command bot (PyObj.command c)).1 rest)
    ∧ (∀ (bot : Bot) (t : String) (rest : List PyObj),
        initCommandsLoop bot (PyObj.other t :: rest) = initCommandsLoop bot rest) := by
  have hstep : ∀ (bot : Bot) (c : Command) (rest : List PyObj),
      initCommandsLoop bot (PyObj.command c :: rest) =
        initCommandsLoop (add_command bot (PyObj.command c)).1 rest := by
    intro bot c rest
    rw [initCommandsLoop]
    rcases hac : add_command bot (PyObj.command c) with ⟨bot2, err⟩
    cases err with
    | none => rfl
    | some e =>
      have he : isTwitchCommandError e = true :=
        add_command_err_twitch bot c e (by rw [hac])
      simp [he]
  refine ⟨?_, hstep, fun bot t rest => rfl⟩
  intro bot members
  induction members generalizing bot with
  | nil => exact ⟨bot, rfl⟩
  | cons m rest ih =>
    cases m with
    | other t => exact ih bot
    | command c => rw [hstep]; exact ih _

/-- Claim C1, counterexample: with the static prefix `!` and no registered
commands, handling `"!foo"` does not publish a `command_error` event and
return normally — `handle_commands` raises `CommandNotFound` to its
caller (the claim asserts it returns normally after publishing exactly one
`command_error`). -/
theorem C1_handle_commands_counterexample :
    handle_commands emptyBot { content := "!foo" } =
      Except.error (PyErr.commandNotFound (noCommandMsg "foo")) := rfl

/-- Claim C1, amended: for a message that matches a non-empty prefix and
whose first token resolves (through the alias map) to no registered
command, `handle_commands` raises `CommandNotFound` to its caller; no
`command_error` event is published by it and the command callback is never
scheduled (`invoke` is never reached). -/
theorem C1_handle_commands_raises_commandNotFound
    (bot : Bot) (msg : Message) (p tok : String) (rest : List String)
    (hp : get_pfx bot msg = .ok (some p))
    (hne : pyStrFalsy p = false)
    (htok : process_string (pyLStripSpaces (pyDropChars msg.content (pyStrLen p))) =
      .ok (tok :: rest))
    (hres : dictGet bot.commands ((dictGet bot.command_aliases tok).getD tok) = none) :
    handle_commands bot msg =
      Except.error (PyErr.commandNotFound
        (noCommandMsg ((dictGet bot.command_aliases tok).getD tok))) := by
  unfold handle_commands get_context
  rw [hp]
  simp only [hne, Bool.false_eq_true, if_false, htok, hres]

/-- Claim C1, witness: the amended theorem at the concrete scenario of the
counterexample. -/
theorem C1_handle_commands_raises_commandNotFound_witness :
    handle_commands emptyBot { content := "!foo" } =
      Except.error (PyErr.commandNotFound
        (noCommandMsg ((dictGet emptyBot.command_aliases "foo").getD "foo"))) :=
  C1_handle_commands_raises_commandNotFound emptyBot { content := "!foo" } "!" "foo" []
    rfl rfl rfl rfl

/-- Claim C3, counterexample: a callback that raises does not suppress the
after-hooks — the trace of `invoke` still ends with the command's
`after_invoke` and `global_after_invoke`, after the `command_error`
publication (the claim asserts both after-hooks are skipped when the
callback raises). -/
theorem C3_after_hooks_counterexample :
    invoke emptyBot ctxC3 =
      Except.ok [Action.ranGlobalBefore, Action.ranCallback false,
        Action.runEvent "command_error" (PyErr.exc "boom"),
        Action.ranAfter, Action.ranGlobalAfter] := rfl

/-- Claim C3, amended: once checks and cooldowns pass, `invoke` always
appends the after-hook trace — the command's `after_invoke` first, then
`global_after_invoke` — whether the callback returned normally or raised;
the after-hook trace is a function of the bot, command and context alone,
independent of the callback's outcome. -/
theorem C3_after_hooks_always_run (bot : Bot) (ctx : Context) (cmd : Command)
    (hpfx : pyTruthyStrOpt ctx.pfx = true)
    (hcmd : ctx.command = some cmd)
    (hchk : handle_checks bot cmd ctx.view = none)
    (hcd : run_cooldowns cmd ctx.view = none ∨ run_cooldowns cmd ctx.view = some []) :
    invoke bot ctx =
      Except.ok (preHooksAndCallback bot cmd ctx.view ++ afterHooks bot cmd ctx.view)
    ∧ Action.ranGlobalAfter ∈ afterHooks bot cmd ctx.view
    ∧ ∀ h, cmd.after_invoke = some h → Action.ranAfter ∈ afterHooks bot cmd ctx.view := by
  refine ⟨?_, ?_, ?_⟩
  · unfold invoke
    rw [hpfx, hcmd]
    simp only [Bool.true_eq_false, if_false]
    rw [hchk]
    rcases hcd with h | h <;> rw [h] <;> rfl
  · simp [afterHooks, try_run]
  · intro h hh
    simp [afterHooks, hh, try_run]

/-- Claim C3, witness: the amended theorem at the raising-callback scenario
of the counterexample. -/
theorem C3_after_hooks_always_run_witness :
    invoke emptyBot ctxC3 =
      Except.ok (preHooksAndCallback emptyBot cmdC3 ctxC3.view
        ++ afterHooks emptyBot cmdC3 ctxC3.view) :=
  (C3_after_hooks_always_run emptyBot ctxC3 cmdC3 rfl rfl rfl (Or.inl rfl)).1

/-- Claim C4: the check engine never awaits an async predicate.  In
general, `checksLoop` skips any `async def` predicate regardless of the
boolean its body would resolve to (its call yields a coroutine object,
which is not the literal `False`); concretely, a command guarded only by
an async predicate resolving to `False` passes `handle_checks` and its
callback is invoked — the claim (and §4.4 of the spec) requires the
predicate to be awaited and the callback to be blocked. -/
theorem C4_async_check_never_awaited :
    (∀ (i : String) (f : CtxView → Except PyErr Bool) (rest : List Predicate)
      (n : String) (v : CtxView),
      checksLoop ({ id := i, kind := PredKind.async f } :: rest) n v = checksLoop rest n v)
    ∧ handle_checks emptyBot cmdC4 ctxC4.view = none
    ∧ invoke emptyBot ctxC4 =
        Except.ok [Action.ranGlobalBefore, Action.ranCallback true, Action.ranGlobalAfter] := by
  refine ⟨?_, rfl, rfl⟩
  intro i f rest n v
  rw [checksLoop]
  rfl

/-- Claim C5: publishing an event with at least two subscribers schedules a
wrapper task for every subscriber, after the built-in handler slot, in
subscription (list) order; the schedule does not consult any subscriber's
behaviour, so each remains scheduled whatever the others do; and a
subscriber whose awaited body raises has the exception caught by its
wrapper and re-published through the generic `error` event. -/
theorem C5_run_event_fanout (bot : Bot) (name : String) (subs : List EvCallback)
    (h1 : dictGet bot.events name = some subs)
    (_h2 : 2 ≤ subs.length) :
    run_event bot name = builtinSched bot name ++ subs.map Sched.task
    ∧ (∀ cb ∈ subs, Sched.task cb ∈ run_event bot name)
    ∧ (∀ cb e, cb ∈ subs → cb.call = Except.error e →
        runWrapped bot cb = (some e, run_event bot "error")) := by
  have hsched : run_event bot name = builtinSched bot name ++ subs.map Sched.task := by
    unfold run_event
    rw [h1]
  refine ⟨hsched, ?_, ?_⟩
  · intro cb hcb
    rw [hsched]
    exact List.mem_append_right _ (List.mem_map_of_mem _ hcb)
  · intro cb e _ hcall
    unfold runWrapped
    rw [hcall]

/-- Claim C5, witness: the fan-out theorem at a bot with two subscribers on
`ping`, the second of which raises. -/
theorem C5_run_event_fanout_witness :
    run_event bot5 "ping" = builtinSched bot5 "ping" ++ [cbA, cbB].map Sched.task
    ∧ runWrapped bot5 cbB = (some (PyErr.exc "boom"), run_event bot5 "error") :=
  ⟨(C5_run_event_fanout bot5 "ping" [cbA, cbB] rfl (by decide)).1,
    (C5_run_event_fanout bot5 "ping" [cbA, cbB] rfl (by decide)).2.2 cbB _
      (by decide) rfl⟩

/-- Claim C6: with checks passed, a command with no cooldown groups passes
the cooldown stage trivially and `invoke` proceeds to hooks and callback;
when a bucket of the first group signals cooldown-exceeded, `invoke`
publishes exactly one `command_error` carrying the collected error and the
callback never appears in the trace; and `_run_cooldowns` only ever
consults the first group. -/
theorem C6_cooldowns_first_group_only (bot : Bot) (ctx : Context) (cmd : Command)
    (hpfx : pyTruthyStrOpt ctx.pfx = true)
    (hcmd : ctx.command = some cmd)
    (hchk : handle_checks bot cmd ctx.view = none) :
    (cmd.cooldowns = [] → invoke bot ctx = Except.ok (invokeHooks bot cmd ctx.view))
    ∧ (∀ g gs e rest, cmd.cooldowns = g :: gs →
        updateBuckets (g.get_buckets ctx.view) ctx.view = e :: rest →
        invoke bot ctx = Except.ok [Action.runEvent "command_error" e]
        ∧ ∀ b, Action.ranCallback b ∉ [Action.runEvent "command_error" e])
    ∧ (∀ g gs, cmd.cooldowns = g :: gs →
        run_cooldowns cmd ctx.view = run_cooldowns { cmd with cooldowns := [g] } ctx.view) := by
  have hinv : ∀ r, run_cooldowns cmd ctx.view = r →
      invoke bot ctx =
        (match r with
         | some (e :: _) => Except.ok [Action.runEvent "command_error" e]
         | _ => Except.ok (invokeHooks bot cmd ctx.view)) := by
    intro r hr
    unfold invoke
    rw [hpfx, hcmd]
    simp only [Bool.true_eq_false, if_false]
    rw [hchk, hr]
  refine ⟨?_, ?_, ?_⟩
  · intro hnil
    have hr : run_cooldowns cmd ctx.view = none := by
      unfold run_cooldowns
      rw [hnil]
    exact hinv none hr
  · intro g gs e rest hcons hup
    have hr : run_cooldowns cmd ctx.view = some (e :: rest) := by
      unfold run_cooldowns
      rw [hcons]
      show some (updateBuckets (g.get_buckets ctx.view) ctx.view) = some (e :: rest)
      rw [hup]
    exact ⟨hinv (some (e :: rest)) hr, by intro b; simp⟩
  · intro g gs hcons
    unfold run_cooldowns
    rw [hcons]

/-- Claim C6, witness: a command with two cooldown groups whose first
contains an exhausted bucket aborts with a single `command_error`. -/
theorem C6_cooldowns_first_group_only_witness :
    invoke emptyBot ctxC6 =
      Except.ok [Action.runEvent "command_error" (PyErr.commandOnCooldown "rate limited")] :=
  ((C6_cooldowns_first_group_only emptyBot ctxC6 cmdC6 rfl rfl rfl).2.1
    grpHot [grpCold] (PyErr.commandOnCooldown "rate limited") [] rfl rfl).1

/-- Claim C7: once every earlier predicate in the effective check list
passes, a predicate whose call returns the literal `False` aborts the
invocation with exactly one `command_error` event carrying a
`CheckFailure` that names the predicate and the command, with no callback
in the trace; a predicate whose call raises aborts identically with the
original exception delivered through `command_error`. -/
theorem C7_check_failure_reported (bot : Bot) (ctx : Context) (cmd : Command)
    (pre : List Predicate) (p : Predicate) (post : List Predicate)
    (hpfx : pyTruthyStrOpt ctx.pfx = true)
    (hcmd : ctx.command = some cmd)
    (heff : effectiveChecks bot cmd = pre ++ p :: post)
    (hpre : ∀ q ∈ pre, ∃ r, callPredicate q ctx.view = .ok r ∧ r ≠ PyVal.bool false) :
    (∀ f, p.kind = PredKind.sync f → f ctx.view = .ok false →
      invoke bot ctx =
        Except.ok [Action.runEvent "command_error" (PyErr.checkFailure p.id cmd.name)]
      ∧ ∀ b, Action.ranCallback b ∉
          [Action.runEvent "command_error" (PyErr.checkFailure p.id cmd.name)])
    ∧ (∀ f e, p.kind = PredKind.sync f → f ctx.view = .error e →
      invoke bot ctx = Except.ok [Action.runEvent "command_error" e]) := by
  have hloop : handle_checks bot cmd ctx.view = checksLoop (p :: post) cmd.name ctx.view := by
    simp only [handle_checks]
    rw [heff, isEmpty_append_cons]
    simp only [Bool.false_eq_true, if_false]
    exact checksLoop_append_pass cmd.name ctx.view pre (p :: post) hpre
  have hinv : ∀ e, handle_checks bot cmd ctx.view = some e →
      invoke bot ctx = Except.ok [Action.runEvent "command_error" e] := by
    intro e he
    unfold invoke
    rw [hpfx, hcmd]
    simp only [Bool.true_eq_false, if_false]
    rw [he]
  refine ⟨?_, ?_⟩
  · intro f hk hf
    have hc : handle_checks bot cmd ctx.view = some (PyErr.checkFailure p.id cmd.name) := by
      rw [hloop, checksLoop]
      simp [isawaitable, callPredicate, hk, hf]
    exact ⟨hinv _ hc, by intro b; simp⟩
  · intro f e hk hf
    have hc : handle_checks bot cmd ctx.view = some e := by
      rw [hloop, checksLoop]
      simp [isawaitable, callPredicate, hk, hf]
    exact hinv _ hc

/-- Claim C7, witness: the theorem at a command guarded by a sync predicate
returning `False`, and at one guarded by a raising predicate. -/
theorem C7_check_failure_reported_witness :
    invoke emptyBot ctxC7 =
      Except.ok [Action.runEvent "command_error" (PyErr.checkFailure "sync_false" "t")]
    ∧ invoke emptyBot ctxC7b =
        Except.ok [Action.runEvent "command_error" (PyErr.exc "bad")] :=
  ⟨((C7_check_failure_reported emptyBot ctxC7 cmdC7 [] syncFalse [] rfl rfl rfl
        (by intro q hq; cases hq)).1 _ rfl rfl).1,
    (C7_check_failure_reported emptyBot ctxC7b cmdC7b [] syncRaise [] rfl rfl rfl
        (by intro q hq; cases hq)).2 _ (PyErr.exc "bad") rfl rfl⟩

/-- Claim C8: with module `m` loaded and a five-character command name
registered, `reload_module` raises `ValueError` while character-unpacking
the command dict's keys — after the module record was already popped and
outside the restoring `except` — leaving the module registry empty rather
than restored (the command map itself is untouched here, keys `["hello"]`
before and after). -/
theorem C8_reload_module_not_restored :
    (reload_module env8 st8 "m").1 =
      Except.error (PyErr.valueError "too many or too few values to unpack (expected 2)")
    ∧ st8.modules = [("m", "modM")]
    ∧ (reload_module env8 st8 "m").2.modules = []
    ∧ dictKeys (reload_module env8 st8 "m").2.commands = ["hello"] :=
  ⟨rfl, rfl, rfl, rfl⟩

/-- Claim C9: `add_event` rejects an `async def` handler function — the
value every `@bot.event` decoration passes — with `ValueError`, because
`inspect.iscoroutine` is true only for coroutine objects; only a coroutine
object is accepted and appended under its event name. -/
theorem C9_add_event_rejects_async_function :
    add_event emptyBot handlerFn none =
      Except.error (PyErr.valueError "callback must be a coroutine")
    ∧ add_event emptyBot coroObjCb none =
        Except.ok { emptyBot with events := [("event_test2", [coroObjCb])] } :=
  ⟨rfl, rfl⟩

end Twitchio
